import Mathlib

/-!
Verification of the MWSdynamics military-workforce ODE model
(`src/sim.py`, class `MilitaryWorkforceModel`).

The Python code is shallowly embedded over exact rationals: numpy arrays
become functions `Nat → ℚ` (vectors) and `Nat → Nat → ℚ` (matrices), and
the imperative accumulation into the separate delta grid `dpop` becomes a
closed-form per-cell expression (the source reads only `pop` and writes
only `dpop`, so the accumulated value of each cell is the sum of the
contributions written to it, independent of loop order).  Where the Python
code can raise, the embedding returns `Except`.  numpy float division by
zero yields a non-finite value (NaN when the numerator is also zero), which
the embedding marks with `none`.  The external ODE solver
(`scipy.integrate.solve_ivp`) is modelled by its returned object, which is
an input to the embedded `simulate`.
-/

namespace MWS

/-- Model constant `self.num_ranks = 6` (E1 to E6). -/
def num_ranks : ℕ := 6

/-- Model constant `self.num_specialties = 3` (Combat, Technical, Support). -/
def num_specialties : ℕ := 3

/-- A population grid: ranks × specialties, entries as exact rationals. -/
abbrev Grid : Type := ℕ → ℕ → ℚ

/-- The all-zero grid (`np.zeros((num_ranks, num_specialties))`). -/
def zeroGrid : Grid := fun _ _ => 0

/-- Default `self.initial_population` as set in `__init__`: rows E1..E6,
columns Combat, Technical, Support. -/
def initial_population : Grid := fun r s =>
  match r, s with
  | 0, 0 => 1000 | 0, 1 => 1200 | 0, 2 => 800
  | 1, 0 => 900  | 1, 1 => 1000 | 1, 2 => 700
  | 2, 0 => 700  | 2, 1 => 800  | 2, 2 => 600
  | 3, 0 => 500  | 3, 1 => 600  | 3, 2 => 400
  | 4, 0 => 300  | 4, 1 => 400  | 4, 2 => 200
  | 5, 0 => 100  | 5, 1 => 150  | 5, 2 => 80
  | _, _ => 0

/-- The rate configuration held on the model instance: recruitment per
specialty, promotion and attrition per rank, cross-training matrix over
specialties. -/
structure Config where
  recruitment_rates : ℕ → ℚ
  promotion_rates : ℕ → ℚ
  attrition_rates : ℕ → ℚ
  cross_training_matrix : ℕ → ℕ → ℚ

/-- Default rates set in `__init__`:
`recruitment_rates = [100, 120, 80]`,
`promotion_rates = [0.3, 0.25, 0.2, 0.15, 0.1, 0]`,
`attrition_rates = [0.15, 0.12, 0.10, 0.08, 0.05, 0.15]`,
`cross_training_matrix` with 0.90 on the diagonal and 0.05 elsewhere. -/
def defaultConfig : Config where
  recruitment_rates := fun s =>
    match s with | 0 => 100 | 1 => 120 | 2 => 80 | _ => 0
  promotion_rates := fun r =>
    match r with
    | 0 => 30/100 | 1 => 25/100 | 2 => 20/100
    | 3 => 15/100 | 4 => 10/100 | _ => 0
  attrition_rates := fun r =>
    match r with
    | 0 => 15/100 | 1 => 12/100 | 2 => 10/100
    | 3 => 8/100  | 4 => 5/100  | 5 => 15/100 | _ => 0
  cross_training_matrix := fun s t =>
    match s, t with
    | 0, 0 => 90/100 | 0, 1 => 5/100  | 0, 2 => 5/100
    | 1, 0 => 5/100  | 1, 1 => 90/100 | 1, 2 => 5/100
    | 2, 0 => 5/100  | 2, 1 => 5/100  | 2, 2 => 90/100
    | _, _ => 0

/-- The ODE right-hand side `workforce_ode`, per cell.  The source
accumulates into a fresh `dpop` grid:
recruitment is added to rank-0 cells; each cell loses
`pop * attrition_rates[rank]`; a non-top rank loses
`pop * promotion_rates[rank]` which is added to the same specialty one
rank up; and for every `target_specialty ≠ specialty` the cell loses
`pop * cross_training_matrix[specialty, target] * 0.05` (the fixed 5%
annual cross-training fraction), added to the target cell at the same
rank.  Since the loop reads `pop` and writes `dpop` only, the final value
of `dpop[rank, specialty]` is the sum of all contributions to that cell,
written out below. -/
def workforce_ode (cfg : Config) (pop : Grid) (rank specialty : ℕ) : ℚ :=
  (if rank = 0 then cfg.recruitment_rates specialty else 0)
  - pop rank specialty * cfg.attrition_rates rank
  - (if rank < num_ranks - 1 then pop rank specialty * cfg.promotion_rates rank else 0)
  + (match rank with
     | 0 => 0
     | r + 1 =>
       if r < num_ranks - 1 then pop r specialty * cfg.promotion_rates r else 0)
  - (∑ t ∈ Finset.range num_specialties,
      if t ≠ specialty then
        pop rank specialty * cfg.cross_training_matrix specialty t * (5/100)
      else 0)
  + (∑ t ∈ Finset.range num_specialties,
      if t ≠ specialty then
        pop rank t * cfg.cross_training_matrix t specialty * (5/100)
      else 0)

/-- Division as numpy performs it for the specialty ratios: a nonzero
denominator gives the exact quotient; a zero denominator gives a
non-finite IEEE value (NaN when the numerator is also zero, ±inf
otherwise), which the embedding marks with `none`. -/
def npDiv (a b : ℚ) : Option ℚ := if b = 0 then none else some (a / b)

/-- Per-time-point metric values stored by `calculate_metrics`:
`total_force`, the three specialty ratios, `junior_to_senior_ratio` and
`experienced_personnel`.  The specialty ratios carry the `npDiv` marker
since the source divides by the unguarded total. -/
structure SnapshotMetrics where
  total_force : ℚ
  combat_ratio : Option ℚ
  technical_ratio : Option ℚ
  support_ratio : Option ℚ
  junior_to_senior_ratio : ℚ
  experienced_personnel : ℚ
  deriving DecidableEq

/-- Metric values for the snapshot `pop = population[t]`, as computed by
the `calculate_metrics` loop body:
`total_force = np.sum(pop)`;
each specialty ratio is the column sum divided by the total (no zero
guard); `junior = np.sum(pop[0:3, :])`, `senior = np.sum(pop[3:, :])`;
`junior_to_senior_ratio = junior / max(senior, 1)` (the only guarded
division); `experienced_personnel = senior`. -/
def metricsOfSnapshot (pop : Grid) : SnapshotMetrics :=
  let total := ∑ r ∈ Finset.range num_ranks, ∑ s ∈ Finset.range num_specialties, pop r s
  let junior := ∑ r ∈ Finset.range 3, ∑ s ∈ Finset.range num_specialties, pop r s
  let senior := ∑ r ∈ Finset.range 3, ∑ s ∈ Finset.range num_specialties, pop (r + 3) s
  { total_force := total
    combat_ratio := npDiv (∑ r ∈ Finset.range num_ranks, pop r 0) total
    technical_ratio := npDiv (∑ r ∈ Finset.range num_ranks, pop r 1) total
    support_ratio := npDiv (∑ r ∈ Finset.range num_ranks, pop r 2) total
    junior_to_senior_ratio := junior / max senior 1
    experienced_personnel := senior }

/-- One iteration `t` of the `calculate_metrics` loop, threading the
`population` array through as explicit state: the body reads
`population[t]`, appends that snapshot's metric values, and passes the
array on unchanged (the source never assigns into `population`). -/
def metricsStep (acc : List SnapshotMetrics × List Grid) (t : ℕ) :
    List SnapshotMetrics × List Grid :=
  let pop := acc.2.getD t zeroGrid
  (acc.1 ++ [metricsOfSnapshot pop], acc.2)

/-- Embedding of `calculate_metrics(time, population)`: loop over
`num_steps = len(time)` indices, threading the population array as
state.  The first component is the metrics series, the second the
population array object as it stands after the call. -/
def calculate_metrics (time : List ℚ) (population : List Grid) :
    List SnapshotMetrics × List Grid :=
  (List.range time.length).foldl metricsStep ([], population)

/-- Embedding of `np.arange(start, stop, step)` over exact rationals:
`⌈(stop - start) / step⌉` points `start + i * step`. -/
def np_arange (start stop step : ℚ) : List ℚ :=
  (List.range (⌈(stop - start) / step⌉).toNat).map fun i : ℕ => start + (i : ℚ) * step

/-- The fixed sample grid of `simulate`:
`time_points = np.arange(0, years, dt)`. -/
def time_points (years dt : ℚ) : List ℚ := np_arange 0 years dt

/-- The object returned by `scipy.integrate.solve_ivp`, reduced to the
two parts `simulate` looks at: the sample columns `y` (transposed and
reshaped into one grid per computed `t_eval` point) and the `success`
flag.  When the solver stops early, `y` holds only the `t_eval` points it
reached; a solver that fails after passing the last `t_eval` point still
returns all requested columns, with `success = False`. -/
structure OdeSolution where
  success : Bool
  snapshots : List Grid

/-- Embedding of everything `simulate` does after the `solve_ivp` call:
it reshapes `solution.y.T` to `(num_steps, num_ranks, num_specialties)` —
which raises `ValueError` exactly when the number of returned sample
columns differs from `num_steps = len(time_points)` — and otherwise
computes metrics and returns `(time_points, population, metrics)`,
never consulting `solution.success`. -/
def simulate (years dt : ℚ) (sol : OdeSolution) :
    Except Unit (List ℚ × List Grid × List SnapshotMetrics) :=
  let tp := time_points years dt
  if sol.snapshots.length = tp.length then
    .ok (tp, sol.snapshots, (calculate_metrics tp sol.snapshots).1)
  else
    .error ()

/-- Dynamic attribute update `setattr(self, key, value)` on an attribute
store mapping names to values. -/
def setattr {V : Type} (m : String → Option V) (key : String) (v : V) :
    String → Option V :=
  fun k => if k = key then some v else m k

/-- The warning printed by `run_scenario` for an unrecognized key. -/
def warnMsg (key : String) : String :=
  "Warning: Parameter " ++ key ++ " not recognized."

/-- The `for key, value in kwargs.items()` loop of `run_scenario`: a key
with `hasattr(self, key)` has its prior value recorded in
`original_params` and the attribute overwritten; any other key only
prints a warning.  Returns the updated store, the saved
`original_params` (in insertion order) and the printed warnings. -/
def applyOverrides {V : Type} (m : String → Option V) :
    List (String × V) → (String → Option V) × List (String × V) × List String
  | [] => (m, [], [])
  | (key, v) :: rest =>
    match m key with
    | some v0 =>
      let r := applyOverrides (setattr m key v) rest
      (r.1, (key, v0) :: r.2.1, r.2.2)
    | none =>
      let r := applyOverrides m rest
      (r.1, r.2.1, warnMsg key :: r.2.2)

/-- The restore loop of `run_scenario`:
`for key, value in original_params.items(): setattr(self, key, value)`. -/
def restoreParams {V : Type} (m : String → Option V)
    (saved : List (String × V)) : String → Option V :=
  saved.foldl (fun acc kv => setattr acc kv.1 kv.2) m

/-- Embedding of `run_scenario`: apply the overrides, run
`self.simulate(years)` (whose outcome is determined by the solver result
`sol`), and restore the saved parameters.  The source has no
`try/finally`: the restore loop runs only after `simulate` returns
normally, so on the exception path the store is left as overridden.
Returns the simulation outcome, the final attribute store, and the
warnings printed. -/
def run_scenario {V : Type} (m : String → Option V)
    (kwargs : List (String × V)) (years dt : ℚ) (sol : OdeSolution) :
    Except Unit (List ℚ × List Grid × List SnapshotMetrics) ×
      (String → Option V) × List String :=
  let r := applyOverrides m kwargs
  match simulate years dt sol with
  | .ok res => (.ok res, restoreParams r.1 r.2.1, r.2.2)
  | .error e => (.error e, r.1, r.2.2)

/-- A solver outcome that failed before producing any sample column
(`success = False`, no columns). -/
def earlyFailureSolution : OdeSolution :=
  { success := false
    snapshots := [] }

/-- A solver outcome that failed only after passing the last requested
sample time for `years = 1, dt = 1/2`: both sample columns are present
but `success = False`. -/
def lateFailureSolution : OdeSolution :=
  { success := false
    snapshots := [initial_population, initial_population] }

/-- An attribute store holding the single known configuration attribute
`recruitment_rates` (with a scalar stand-in value). -/
def scenarioStore : String → Option ℚ :=
  fun k => if k = "recruitment_rates" then some 100 else none

/-- Example `run_scenario` keyword arguments: one known key and one
unknown key. -/
def exampleOverrides : List (String × ℚ) :=
  [("recruitment_rates", 150), ("bogus_rate", 1)]

/-- A configuration with zero recruitment and attrition but the default
promotion and cross-training rates. -/
def conservationConfig : Config where
  recruitment_rates := fun _ => 0
  promotion_rates := defaultConfig.promotion_rates
  attrition_rates := fun _ => 0
  cross_training_matrix := defaultConfig.cross_training_matrix

/-- The default cross-training matrix with its diagonal replaced by
zeros (off-diagonal entries unchanged). -/
def diagAltMatrix : ℕ → ℕ → ℚ :=
  fun s t => if s = t then 0 else defaultConfig.cross_training_matrix s t

/-! ## Helper lemmas -/

lemma time_points_eq (years dt : ℚ) :
    time_points years dt =
      (List.range (⌈years / dt⌉).toNat).map fun i : ℕ => (i : ℚ) * dt := by
  unfold time_points np_arange
  rw [sub_zero]
  simp only [zero_add]

lemma lt_time_points_len_iff (years dt : ℚ) (hdt : 0 < dt) (i : ℕ) :
    i < (⌈years / dt⌉).toNat ↔ (i : ℚ) * dt < years := by
  rw [Int.lt_toNat, Int.lt_ceil, lt_div_iff₀ hdt]
  norm_cast

lemma time_points_len_half : (time_points 1 (1/2)).length = 2 := by
  rw [time_points_eq, List.length_map, List.length_range]
  norm_num
  rfl

lemma simulate_early_error :
    simulate 1 (1/2) earlyFailureSolution = .error () := by
  rw [simulate]
  simp only [earlyFailureSolution, List.length_nil, time_points_len_half]
  norm_num

lemma applyOverrides_unknown_not_created {V : Type} (m : String → Option V)
    (kwargs : List (String × V)) (k : String) (hk : m k = none) :
    (applyOverrides m kwargs).1 k = none := by
  induction kwargs generalizing m with
  | nil => exact hk
  | cons kv rest ih =>
    obtain ⟨key, v⟩ := kv
    rw [applyOverrides]
    cases h : m key with
    | some v0 =>
      simp only []
      apply ih
      unfold setattr
      rw [if_neg]
      · exact hk
      · intro e
        rw [e, h] at hk
        cases hk
    | none =>
      exact ih m hk

lemma applyOverrides_not_key {V : Type} (m : String → Option V)
    (kwargs : List (String × V)) (k : String)
    (hk : k ∉ kwargs.map Prod.fst) :
    (applyOverrides m kwargs).1 k = m k := by
  induction kwargs generalizing m with
  | nil => rfl
  | cons kv rest ih =>
    obtain ⟨key, v⟩ := kv
    simp only [List.map_cons, List.mem_cons, not_or] at hk
    rw [applyOverrides]
    cases h : m key with
    | some v0 =>
      simp only []
      rw [ih (setattr m key v) hk.2]
      unfold setattr
      rw [if_neg hk.1]
    | none =>
      exact ih m hk.2

lemma applyOverrides_warns {V : Type} (m : String → Option V)
    (kwargs : List (String × V)) (k : String) (v : V)
    (hmem : (k, v) ∈ kwargs) (hk : m k = none) :
    warnMsg k ∈ (applyOverrides m kwargs).2.2 := by
  induction kwargs generalizing m with
  | nil => cases hmem
  | cons kv rest ih =>
    obtain ⟨key, w⟩ := kv
    rcases List.mem_cons.mp hmem with heq | hrest
    · obtain ⟨e1, e2⟩ := Prod.mk.injEq .. ▸ heq
      subst e1
      rw [applyOverrides, hk]
      exact List.mem_cons_self _ _
    · rw [applyOverrides]
      cases h : m key with
      | some v0 =>
        simp only []
        apply ih _ hrest
        unfold setattr
        rw [if_neg]
        · exact hk
        · intro e
          rw [e, h] at hk
          cases hk
      | none =>
        exact List.mem_cons_of_mem _ (ih m hrest hk)

lemma applyOverrides_known {V : Type} (m : String → Option V)
    (kwargs : List (String × V)) (k : String) (v : V) (v0 : V)
    (hnd : (kwargs.map Prod.fst).Nodup)
    (hmem : (k, v) ∈ kwargs) (hk : m k = some v0) :
    (k, v0) ∈ (applyOverrides m kwargs).2.1 ∧
      (applyOverrides m kwargs).1 k = some v := by
  induction kwargs generalizing m with
  | nil => cases hmem
  | cons kv rest ih =>
    obtain ⟨key, w⟩ := kv
    simp only [List.map_cons, List.nodup_cons] at hnd
    rcases List.mem_cons.mp hmem with heq | hrest
    · obtain ⟨e1, e2⟩ := Prod.mk.injEq .. ▸ heq
      subst e1
      subst e2
      rw [applyOverrides, hk]
      constructor
      · exact List.mem_cons_self _ _
      · rw [applyOverrides_not_key _ _ _ hnd.1]
        unfold setattr
        rw [if_pos rfl]
    · have hkne : k ≠ key := by
        intro e
        subst e
        exact hnd.1 (List.mem_map.mpr ⟨(k, v), hrest, rfl⟩)
      rw [applyOverrides]
      cases h : m key with
      | some u =>
        simp only []
        have hm : setattr m key w k = some v0 := by
          unfold setattr
          rw [if_neg hkne]
          exact hk
        obtain ⟨h1, h2⟩ := ih (setattr m key w) hnd.2 hrest hm
        exact ⟨List.mem_cons_of_mem _ h1, h2⟩
      | none =>
        exact ih m hnd.2 hrest hk

lemma metricsStep_foldl_snd (l : List ℕ) (acc : List SnapshotMetrics × List Grid) :
    (l.foldl metricsStep acc).2 = acc.2 := by
  induction l generalizing acc with
  | nil => rfl
  | cons h t ih =>
    rw [List.foldl_cons, ih]
    rfl

set_option maxHeartbeats 2000000 in
lemma default_delta_value :
    workforce_ode defaultConfig initial_population 0 0 = -350 := by
  rw [workforce_ode]
  norm_num [defaultConfig, initial_population, num_ranks, num_specialties,
    Finset.sum_range_succ]

set_option maxHeartbeats 2000000 in
lemma initial_total_value :
    (metricsOfSnapshot initial_population).total_force = 10430 := by
  rw [metricsOfSnapshot]
  norm_num [initial_population, num_ranks, num_specialties,
    Finset.sum_range_succ]

/-! ## Claim theorems -/

/-- Claim C1 (divergence witness, code_bug): on the all-zero population
snapshot, `calculate_metrics` computes every specialty ratio as
`column_sum / 0`, which in numpy floats is NaN (modelled `none`), not the
zero the specification requires; only the junior/senior ratio, whose
denominator is floored at 1 in the source, equals 0. -/
theorem zero_total_metrics_divide_by_zero :
    (metricsOfSnapshot zeroGrid).combat_ratio = none ∧
    (metricsOfSnapshot zeroGrid).technical_ratio = none ∧
    (metricsOfSnapshot zeroGrid).support_ratio = none ∧
    (metricsOfSnapshot zeroGrid).junior_to_senior_ratio = 0 := by
  refine ⟨?_, ?_, ?_, ?_⟩ <;> simp [metricsOfSnapshot, npDiv, zeroGrid]

/-- Claim C2 (divergence witness, code_bug): `run_scenario` has no
`try/finally`, so when the simulation raises (here: the solver stopped
before producing the expected sample columns, making the reshape fail),
the overridden attribute `recruitment_rates` keeps its override value 150
instead of being restored to its pre-call value 100. -/
theorem run_scenario_error_path_keeps_override :
    scenarioStore "recruitment_rates" = some 100 ∧
    (run_scenario scenarioStore [("recruitment_rates", 150)] 1 (1/2)
        earlyFailureSolution).1 = .error () ∧
    (run_scenario scenarioStore [("recruitment_rates", 150)] 1 (1/2)
        earlyFailureSolution).2.1 "recruitment_rates" = some 150 := by
  refine ⟨rfl, ?_, ?_⟩
  · unfold run_scenario
    rw [simulate_early_error]
  · unfold run_scenario
    rw [simulate_early_error]
    simp only []
    rw [applyOverrides]
    simp [scenarioStore, setattr, applyOverrides]

set_option maxHeartbeats 4000000 in
/-- Claim C3: when every recruitment rate and every attrition rate is
zero, the derivative function conserves total population — for every
population grid, the sum of `workforce_ode` over all cells is exactly
zero (promotion and cross-training are pairwise conserved transfers). -/
theorem total_population_conserved (cfg : Config) (pop : Grid)
    (hrec : ∀ s, cfg.recruitment_rates s = 0)
    (hatt : ∀ r, cfg.attrition_rates r = 0) :
    ∑ r ∈ Finset.range num_ranks, ∑ s ∈ Finset.range num_specialties,
      workforce_ode cfg pop r s = 0 := by
  simp only [workforce_ode, num_ranks, num_specialties, Finset.sum_range_succ,
    Finset.sum_range_zero, hrec, hatt]
  norm_num
  ring

/-- Witness for Claim C3: zero recruitment and attrition with the
default promotion and cross-training rates, evaluated on the default
initial population. -/
theorem total_population_conserved_witness :
    (∀ s, conservationConfig.recruitment_rates s = 0) ∧
    (∀ r, conservationConfig.attrition_rates r = 0) ∧
    ∑ r ∈ Finset.range num_ranks, ∑ s ∈ Finset.range num_specialties,
      workforce_ode conservationConfig initial_population r s = 0 :=
  ⟨fun _ => rfl, fun _ => rfl,
    total_population_conserved conservationConfig initial_population
      (fun _ => rfl) (fun _ => rfl)⟩

/-- Claim C4 (counterexample): under the default configuration the
derivative of the (rank 0, specialty 0) cell is not −355; the claim's
hand computation omits the cross-training inflows. -/
theorem default_delta_not_neg355 :
    workforce_ode defaultConfig initial_population 0 0 ≠ -355 := by
  rw [default_delta_value]
  norm_num

/-- Claim C4 (amended): under the default configuration the derivative
of the (rank 0, specialty 0) cell holding 1000 personnel is exactly −350:
100 (recruitment) − 150 (attrition) − 300 (promotion) − 5 (cross-training
outflow) + 5 (cross-training inflow, 3 from Technical and 2 from
Support). -/
theorem default_delta_neg350 :
    workforce_ode defaultConfig initial_population 0 0 = -350 :=
  default_delta_value

/-- Claim C5 (counterexample): the total force metric of the default
initial population grid is not 10530. -/
theorem initial_total_force_ne_10530 :
    (metricsOfSnapshot initial_population).total_force ≠ 10530 := by
  rw [initial_total_value]
  norm_num

/-- Claim C5 (amended): the total force metric at t = 0 — the sum of all
cells of the default initial population grid — equals 10430 (the
specification's own list of cell values sums to 10430, not 10530). -/
theorem initial_total_force_eq_10430 :
    (metricsOfSnapshot initial_population).total_force = 10430 :=
  initial_total_value

/-- Claim C6: for every positive horizon `years` and positive step `dt`,
the sample grid `time_points = np.arange(0, years, dt)` consists exactly
of the multiples of `dt` that are strictly less than `years` (starting at
0, exclusive upper bound), and consecutive points differ by exactly
`dt`. -/
theorem time_points_exact (years dt : ℚ) (_hy : 0 < years) (hdt : 0 < dt) :
    (∀ x : ℚ, x ∈ time_points years dt ↔ ∃ k : ℕ, x = (k : ℚ) * dt ∧ x < years) ∧
    (∀ i : ℕ, ∀ h : i + 1 < (time_points years dt).length,
      (time_points years dt)[i + 1] - (time_points years dt)[i] = dt) := by
  constructor
  · intro x
    rw [time_points_eq, List.mem_map]
    constructor
    · rintro ⟨i, hi, rfl⟩
      rw [List.mem_range] at hi
      exact ⟨i, rfl, (lt_time_points_len_iff years dt hdt i).mp hi⟩
    · rintro ⟨k, rfl, hk⟩
      exact ⟨k, List.mem_range.mpr ((lt_time_points_len_iff years dt hdt k).mpr hk), rfl⟩
  · intro i h
    simp only [time_points_eq, List.getElem_map, List.getElem_range] at h ⊢
    push_cast
    ring

/-- Witness for Claim C6 at `years = 1`, `dt = 1/2`. -/
theorem time_points_exact_witness :
    0 < (1 : ℚ) ∧ 0 < (1/2 : ℚ) ∧
    ((∀ x : ℚ, x ∈ time_points 1 (1/2) ↔
        ∃ k : ℕ, x = (k : ℚ) * (1/2) ∧ x < 1) ∧
     (∀ i : ℕ, ∀ h : i + 1 < (time_points 1 (1/2)).length,
       (time_points 1 (1/2))[i + 1] - (time_points 1 (1/2))[i] = 1/2)) :=
  ⟨by norm_num, by norm_num,
    time_points_exact 1 (1/2) (by norm_num) (by norm_num)⟩

/-- Claim C7 (divergence witness, code_bug): `simulate` never consults
`solution.success`.  A solver run that failed after passing the last
requested sample time returns all `num_steps` columns with
`success = False`; `simulate` then silently returns those populations
and the metrics computed from them instead of reporting a failure. -/
theorem solver_failure_swallowed :
    lateFailureSolution.success = false ∧
    (simulate 1 (1/2) lateFailureSolution).isOk = true := by
  refine ⟨rfl, ?_⟩
  rw [simulate]
  simp only [lateFailureSolution, List.length_cons, List.length_nil,
    time_points_len_half, if_pos]
  rfl

/-- Claim C8: in `run_scenario`, an override key that does not name a
known attribute creates no attribute, produces the non-fatal warning,
and is otherwise ignored — the simulation still runs; a key naming a
known attribute has its prior value saved in `original_params` and the
attribute overwritten for the run. -/
theorem run_scenario_override_handling {V : Type} (m : String → Option V)
    (kwargs : List (String × V)) (hnd : (kwargs.map Prod.fst).Nodup) :
    (∀ k, m k = none → (applyOverrides m kwargs).1 k = none) ∧
    (∀ k v, (k, v) ∈ kwargs → m k = none →
      warnMsg k ∈ (applyOverrides m kwargs).2.2) ∧
    (∀ k v v0, (k, v) ∈ kwargs → m k = some v0 →
      (k, v0) ∈ (applyOverrides m kwargs).2.1 ∧
        (applyOverrides m kwargs).1 k = some v) ∧
    (∀ years dt sol, (simulate years dt sol).isOk = true →
      (run_scenario m kwargs years dt sol).1.isOk = true) := by
  refine ⟨fun k hk => applyOverrides_unknown_not_created m kwargs k hk,
    fun k v hm hk => applyOverrides_warns m kwargs k v hm hk,
    fun k v v0 hm hk => applyOverrides_known m kwargs k v v0 hnd hm hk,
    fun years dt sol hok => ?_⟩
  unfold run_scenario
  cases h : simulate years dt sol with
  | ok res => rfl
  | error e =>
    rw [h] at hok
    simp [Except.isOk, Except.toBool] at hok

/-- Witness for Claim C8: a store knowing `recruitment_rates`, with one
known and one unknown override key. -/
theorem run_scenario_override_handling_witness :
    ((exampleOverrides.map Prod.fst).Nodup) ∧
    ((∀ k, scenarioStore k = none →
        (applyOverrides scenarioStore exampleOverrides).1 k = none) ∧
     (∀ k v, (k, v) ∈ exampleOverrides → scenarioStore k = none →
       warnMsg k ∈ (applyOverrides scenarioStore exampleOverrides).2.2) ∧
     (∀ k v v0, (k, v) ∈ exampleOverrides → scenarioStore k = some v0 →
       (k, v0) ∈ (applyOverrides scenarioStore exampleOverrides).2.1 ∧
         (applyOverrides scenarioStore exampleOverrides).1 k = some v) ∧
     (∀ years dt sol, (simulate years dt sol).isOk = true →
       (run_scenario scenarioStore exampleOverrides years dt sol).1.isOk = true)) :=
  ⟨by simp [exampleOverrides], run_scenario_override_handling scenarioStore
    exampleOverrides (by simp [exampleOverrides])⟩

/-- Claim C9: the metrics reducer never mutates the population array —
threading the array through the `calculate_metrics` loop as explicit
state, the array after the call equals the array before it, for every
time grid and every series of snapshots. -/
theorem calculate_metrics_no_mutation (time : List ℚ) (population : List Grid) :
    (calculate_metrics time population).2 = population := by
  rw [calculate_metrics, metricsStep_foldl_snd]

/-- Claim C10: the derivative function never reads the diagonal of the
cross-training matrix — two configurations agreeing on all rates and on
the off-diagonal cross-training entries produce identical derivatives on
every grid and cell, whatever their diagonals. -/
theorem ode_diag_independent (rec pr att : ℕ → ℚ) (ct₁ ct₂ : ℕ → ℕ → ℚ)
    (pop : Grid) (rank specialty : ℕ)
    (h : ∀ s t : ℕ, s ≠ t → ct₁ s t = ct₂ s t) :
    workforce_ode ⟨rec, pr, att, ct₁⟩ pop rank specialty =
      workforce_ode ⟨rec, pr, att, ct₂⟩ pop rank specialty := by
  rw [workforce_ode.eq_def, workforce_ode.eq_def]
  dsimp only
  congr 1
  · congr 1
    apply Finset.sum_congr rfl
    intro t ht
    by_cases hts : t = specialty
    · simp [hts]
    · rw [if_pos hts, if_pos hts, h specialty t (fun e => hts e.symm)]
  · apply Finset.sum_congr rfl
    intro t ht
    by_cases hts : t = specialty
    · simp [hts]
    · rw [if_pos hts, if_pos hts, h t specialty hts]

/-- Witness for Claim C10: the default cross-training matrix against the
same matrix with its diagonal zeroed, on the default initial grid at
cell (0, 0). -/
theorem ode_diag_independent_witness :
    (∀ s t : ℕ, s ≠ t →
      defaultConfig.cross_training_matrix s t = diagAltMatrix s t) ∧
    workforce_ode
        ⟨defaultConfig.recruitment_rates, defaultConfig.promotion_rates,
          defaultConfig.attrition_rates, defaultConfig.cross_training_matrix⟩
        initial_population 0 0 =
      workforce_ode
        ⟨defaultConfig.recruitment_rates, defaultConfig.promotion_rates,
          defaultConfig.attrition_rates, diagAltMatrix⟩
        initial_population 0 0 :=
  ⟨fun s t hst => by rw [diagAltMatrix, if_neg hst],
    ode_diag_independent defaultConfig.recruitment_rates
      defaultConfig.promotion_rates defaultConfig.attrition_rates
      defaultConfig.cross_training_matrix diagAltMatrix
      initial_population 0 0
      (fun s t hst => by rw [diagAltMatrix, if_neg hst])⟩

end MWS
